import Mathlib

/-!
Verification development for the DreamFarm shopping-cart service
(`src/services/shopping_cart_service.py`).

The Python service is shallowly embedded: monetary values (`Decimal` with two
fractional digits) are integers in euro cents, the relational cart store is a
list of cart lines keyed by product id, the external stock source is a function
from product id to on-hand quantity, and the catalog is a list of product rows.
`random.uniform(lo, hi)` is modelled by an explicit draw `u ∈ [0, 1]` supplied
per item; Python's `round(price, 2)` followed by `Decimal(str(...))` is
modelled by rounding a rational to whole cents.
-/

namespace DreamFarm

/-- Modelled from the spec: the external catalog store's trigram similarity
scoring (PostgreSQL `SIMILARITY`, §6 "trigram/fuzzy similarity scoring"), which
is not part of the repository. A word is lowercased and padded with two leading
blanks and one trailing blank before its trigrams are collected. -/
def padWord (s : String) : List Char :=
  ' ' :: ' ' :: (s.data.map Char.toLower ++ [' '])

/-- Consecutive character triples of a character list. -/
def windows3 : List Char → List (Char × Char × Char)
  | a :: b :: c :: rest => (a, b, c) :: windows3 (b :: c :: rest)
  | _ => []

/-- Distinct trigrams of a (lowercased, padded) word. -/
def trigrams (s : String) : List (Char × Char × Char) :=
  (windows3 (padWord s)).dedup

/-- Modelled from the spec: trigram similarity on a 0–1 scale, the ratio of
shared to total distinct trigrams (0 when both trigram sets are empty, since a
rational with denominator 0 is 0). -/
def similarity (a b : String) : Rat :=
  (((trigrams a).filter (fun t => decide (t ∈ trigrams b))).length : Rat) /
    (((trigrams a ++ trigrams b).dedup.length : Nat) : Rat)

/-- Translation of `PRICE_RANGES` (module-level table), in euro cents. -/
def PRICE_RANGES : List (String × (Int × Int)) :=
  [("Vegetables", (200, 800)), ("Fruits", (300, 1000)), ("Dairy", (100, 500)),
   ("Meat", (800, 2500)), ("Bakery", (200, 600)), ("Seafood", (1000, 3000)),
   ("Beverages", (150, 800)), ("Grains", (150, 600)), ("Snacks", (200, 800)),
   ("Condiments", (150, 700))]

/-- Translation of `DEFAULT_PRICE_RANGE`, in euro cents. -/
def DEFAULT_PRICE_RANGE : Int × Int := (200, 1000)

/-- Translation of `PRICE_RANGES.get(category or "", DEFAULT_PRICE_RANGE)`
inside `_generate_price`: `None` collapses to the empty string, which is not a
table key, so both fall back to the default range. -/
def priceRange (category : Option String) : Int × Int :=
  match PRICE_RANGES.lookup (category.getD "") with
  | some r => r
  | none => DEFAULT_PRICE_RANGE

/-- Rounding a rational number of cents to whole cents (nearest, halves up);
stands in for `round(price, 2)` + `Decimal(str(...))` in `_generate_price`. -/
def roundCents (x : Rat) : Int := ⌊x + 1/2⌋

/-- Translation of `_generate_price`: `random.uniform(lo, hi)` is modelled by
the explicit draw `u ∈ [0, 1]`, giving `lo + u * (hi - lo)` cents, rounded. -/
def generate_price (category : Option String) (u : Rat) : Int :=
  roundCents (((priceRange category).1 : Rat) +
    u * (((priceRange category).2 : Rat) - ((priceRange category).1 : Rat)))

/-- Translation of Python's `str.strip()` as used on the requested product
name: whitespace removed from both ends. -/
def pyStrip (s : String) : String :=
  ⟨((s.data.dropWhile Char.isWhitespace).reverse.dropWhile Char.isWhitespace).reverse⟩

/-- Row of the external `products` table as used by `_search_product`:
id, name and the `is_vip` visibility-restriction flag; `category` is the
catalog-side category, which the fenced query does not read. -/
structure Product where
  product_id : Nat
  product_name : String
  category : Option String
  is_vip : Bool
  deriving DecidableEq

/-- Row returned by `_search_product`'s query: the `SELECT` hardcodes
`'Unknown' AS category` and `false AS is_organic`. -/
structure FoundProduct where
  product_id : Nat
  product_name : String
  category : String
  is_organic : Bool
  sim : Rat
  deriving DecidableEq

/-- Translation of the `WHERE` clause of `_search_product`'s query:
`(is_vip = false OR %s = true) AND SIMILARITY(product_name, %s) > 0.3`. -/
def qualifies (vip : Bool) (name : String) (p : Product) : Bool :=
  (!p.is_vip || vip) && decide ((3 : Rat)/10 < similarity p.product_name name)

/-- Translation of `ORDER BY sim DESC LIMIT 1`: the qualifying row of maximal
similarity (ties broken by scan order, which the spec leaves undefined). -/
def bestBy (f : Product → Rat) : List Product → Option Product
  | [] => none
  | x :: xs =>
    match bestBy f xs with
    | none => some x
    | some y => if f x < f y then some y else some x

/-- Translation of `_search_product`: fuzzy match against the catalog under the
VIP visibility fence, returning at most one row (the category/organic filter
arguments are accepted but not used by the fenced query). -/
def searchProduct (catalog : List Product) (name : String) (vip : Bool) :
    Option FoundProduct :=
  match bestBy (fun p => similarity p.product_name name) (catalog.filter (qualifies vip name)) with
  | none => none
  | some p => some ⟨p.product_id, p.product_name, "Unknown", false,
      similarity p.product_name name⟩

/-- Row of `shopping_cart_items` for one cart: product id, quantity, unit price
in cents (timestamps are not modelled). -/
structure CartLine where
  product_id : Nat
  quantity : Int
  unit_price : Int
  deriving DecidableEq

/-- Stored quantity of a product's line (0 when no line exists). -/
def qtyOf (lines : List CartLine) (pid : Nat) : Int :=
  match lines.find? (fun l => l.product_id == pid) with
  | some l => l.quantity
  | none => 0

/-- Stored unit price of a product's line, when one exists. -/
def priceOf? (lines : List CartLine) (pid : Nat) : Option Int :=
  (lines.find? (fun l => l.product_id == pid)).map (fun l => l.unit_price)

/-- Translation of the `INSERT ... ON CONFLICT (cart_id, product_id) DO UPDATE
SET quantity = shopping_cart_items.quantity + EXCLUDED.quantity ... RETURNING
quantity, unit_price` upsert in `add_to_cart`: on conflict the insert-time
price is ignored; returns the new lines plus (final_quantity, final_price). -/
def upsertLine (lines : List CartLine) (pid : Nat) (qty price : Int) :
    List CartLine × Int × Int :=
  match lines.find? (fun l => l.product_id == pid) with
  | some l =>
    (lines.map (fun m => if m.product_id == pid then { m with quantity := m.quantity + qty } else m),
     l.quantity + qty, l.unit_price)
  | none => (lines ++ [⟨pid, qty, price⟩], qty, price)

/-- Translation of the clamp `UPDATE shopping_cart_items SET quantity = %s
WHERE cart_id = %s AND product_id = %s` in `add_to_cart`, and of the
quantity-update branch of `update_cart_item`. -/
def setQty (lines : List CartLine) (pid : Nat) (q : Int) : List CartLine :=
  lines.map (fun m => if m.product_id == pid then { m with quantity := q } else m)

/-- One requested item of `add_to_cart`: `quantity := none` models a dict
without the `"quantity"` key (the code reads `item.get("quantity", 1)`). -/
structure ItemReq where
  product_name : String
  quantity : Option Int
  category : Option String
  is_organic : Option Bool
  deriving DecidableEq

/-- The distinct `"error"` strings built by `add_to_cart`, with the
interpolated available count carried explicitly. -/
inductive FailReason where
  | nameRequired
  | quantityNotPositive
  | productNotFound
  | insufficientStock (available : Int)
  | reducedToAvailable (available : Int)
  deriving DecidableEq

/-- One entry of `failed_items`; fields absent from the corresponding Python
dict are `none`. -/
structure FailedItem where
  product_name : String
  product_id : Option Nat
  requested_quantity : Option Int
  available_stock : Option Int
  error : FailReason
  deriving DecidableEq

/-- One entry of `added_items` (`add_to_cart` lines 313–321): the `quantity`
field is the requested quantity, `total_price` is `final_price *
final_quantity` in cents. -/
structure AddedItem where
  product_id : Nat
  product_name : String
  quantity : Int
  unit_price : Int
  total_price : Int
  deriving DecidableEq

/-- Translation of the per-item body of `add_to_cart` (source lines 215–321):
validation, product search, stock check, price generation (`u` is the item's
random draw), atomic upsert, and the post-upsert stock re-check that clamps the
stored quantity down to the snapshot and records the item in both lists. -/
def processItem (catalog : List Product) (stock : Nat → Int) (vip : Bool)
    (lines : List CartLine) (req : ItemReq) (u : Rat) :
    List CartLine × Option AddedItem × Option FailedItem :=
  if pyStrip req.product_name = "" then
    (lines, none, some ⟨pyStrip req.product_name, none, none, none, .nameRequired⟩)
  else if req.quantity.getD 1 ≤ 0 then
    (lines, none, some ⟨pyStrip req.product_name, none, none, none, .quantityNotPositive⟩)
  else
    match searchProduct catalog (pyStrip req.product_name) vip with
    | none =>
      (lines, none, some ⟨pyStrip req.product_name, none, some (req.quantity.getD 1), none,
        .productNotFound⟩)
    | some product =>
      if stock product.product_id < req.quantity.getD 1 then
        (lines, none, some ⟨product.product_name, some product.product_id,
          some (req.quantity.getD 1), some (stock product.product_id),
          .insufficientStock (stock product.product_id)⟩)
      else
        if stock product.product_id <
            (upsertLine lines product.product_id (req.quantity.getD 1)
              (generate_price (some product.category) u)).2.1 then
          (setQty (upsertLine lines product.product_id (req.quantity.getD 1)
              (generate_price (some product.category) u)).1 product.product_id
            (stock product.product_id),
           some ⟨product.product_id, product.product_name, req.quantity.getD 1,
             (upsertLine lines product.product_id (req.quantity.getD 1)
               (generate_price (some product.category) u)).2.2,
             (upsertLine lines product.product_id (req.quantity.getD 1)
               (generate_price (some product.category) u)).2.2 * stock product.product_id⟩,
           some ⟨product.product_name, some product.product_id, some (req.quantity.getD 1),
             some (stock product.product_id),
             .reducedToAvailable (stock product.product_id)⟩)
        else
          ((upsertLine lines product.product_id (req.quantity.getD 1)
              (generate_price (some product.category) u)).1,
           some ⟨product.product_id, product.product_name, req.quantity.getD 1,
             (upsertLine lines product.product_id (req.quantity.getD 1)
               (generate_price (some product.category) u)).2.2,
             (upsertLine lines product.product_id (req.quantity.getD 1)
               (generate_price (some product.category) u)).2.2 *
               (upsertLine lines product.product_id (req.quantity.getD 1)
                 (generate_price (some product.category) u)).2.1⟩,
           none)

/-- Translation of the `for item in items` loop of `add_to_cart`: each item is
processed independently against the cart state left by the previous one; the
per-item added/failed records are collected in order. -/
def processItems (catalog : List Product) (stock : Nat → Int) (vip : Bool) :
    List CartLine → List (ItemReq × Rat) →
    List CartLine × List AddedItem × List FailedItem
  | lines, [] => (lines, [], [])
  | lines, (req, u) :: rest =>
    (((processItems catalog stock vip (processItem catalog stock vip lines req u).1 rest).1),
     (processItem catalog stock vip lines req u).2.1.toList ++
       (processItems catalog stock vip (processItem catalog stock vip lines req u).1 rest).2.1,
     (processItem catalog stock vip lines req u).2.2.toList ++
       (processItems catalog stock vip (processItem catalog stock vip lines req u).1 rest).2.2)

/-- One enriched item of `get_cart`'s result. -/
structure GetCartItem where
  product_id : Nat
  quantity : Int
  unit_price : Int
  total_price : Int
  available_stock : Int
  deriving DecidableEq

/-- Result of `get_cart`. -/
structure GetCartResult where
  items : List GetCartItem
  total_items : Int
  total_price : Int
  currency : String
  deriving DecidableEq

/-- Translation of `get_cart`: each line is enriched with a live stock
re-fetch, `total_items` sums quantities and `total_price` sums the per-line
`quantity * unit_price` (the `added_at DESC` ordering is not modelled). -/
def get_cart (stock : Nat → Int) (lines : List CartLine) : GetCartResult :=
  { items := lines.map (fun l =>
      ⟨l.product_id, l.quantity, l.unit_price, l.quantity * l.unit_price, stock l.product_id⟩),
    total_items := (lines.map (fun l => l.quantity)).sum,
    total_price := (lines.map (fun l => l.quantity * l.unit_price)).sum,
    currency := "EUR" }

/-- Result of `add_to_cart` (`lines` is the committed cart state). -/
structure AddToCartResult where
  lines : List CartLine
  added_items : List AddedItem
  failed_items : List FailedItem
  success : Bool
  cart_total : Int
  total_items : Int
  deriving DecidableEq

/-- Translation of `add_to_cart`: process the items against the user's cart,
commit, then report `success := failed_items == []` together with the re-read
cart summary. -/
def addToCart (catalog : List Product) (stock : Nat → Int) (vip : Bool)
    (lines0 : List CartLine) (items : List (ItemReq × Rat)) : AddToCartResult :=
  { lines := (processItems catalog stock vip lines0 items).1,
    added_items := (processItems catalog stock vip lines0 items).2.1,
    failed_items := (processItems catalog stock vip lines0 items).2.2,
    success := (processItems catalog stock vip lines0 items).2.2.isEmpty,
    cart_total := (get_cart stock (processItems catalog stock vip lines0 items).1).total_price,
    total_items := (get_cart stock (processItems catalog stock vip lines0 items).1).total_items }

/-- One entry of the stock API's `items` list; `onStock := none` models a dict
without the `"onStock"` key. -/
structure StockItem where
  onStock : Option Int
  deriving DecidableEq

/-- Parsed body of the stock API response; `items := none` models a JSON body
without the `"items"` key (the code reads `data.get("items", [])`). -/
structure StockBody where
  items : Option (List StockItem)
  deriving DecidableEq

/-- Outcome of the HTTP POST in `_get_stock_quantity`: a transport-level
exception, or a status code with a body (`none` = body that fails to parse as
JSON). -/
inductive StockResponse where
  | transportError
  | httpStatus (code : Nat) (body : Option StockBody)
  deriving DecidableEq

/-- Translation of `_get_stock_quantity`: `raise_for_status` raises on any
status ≥ 400 and the surrounding `try/except` collapses every raising path to
0; otherwise the first item's `onStock` is returned, defaulting to 0. The
function is total, so no outcome propagates an exception to the caller. -/
def get_stock_quantity : StockResponse → Int
  | .transportError => 0
  | .httpStatus code body =>
    if 400 ≤ code then 0
    else
      match body with
      | none => 0
      | some b =>
        match b.items.getD [] with
        | [] => 0
        | it :: _ => it.onStock.getD 0

/-- The distinct `"error"` strings returned by `update_cart_item`. -/
inductive UpdError where
  | invalidProductId
  | negativeQuantity
  | insufficientStock (available : Int)
  | cartNotFound
  deriving DecidableEq

/-- Translation of `update_cart_item`. The cart is `none` when no
`shopping_carts` row exists for the user; `pid?` models the `UUID(product_id)`
parse, `none` being a malformed id string (the `ValueError` branch). Returns
the new cart state, the `success` flag and the error, if any. -/
def update_cart_item (stock : Nat → Int) (cart : Option (List CartLine))
    (pid? : Option Nat) (q : Int) :
    Option (List CartLine) × Bool × Option UpdError :=
  match pid? with
  | none => (cart, false, some .invalidProductId)
  | some pid =>
    if q < 0 then (cart, false, some .negativeQuantity)
    else if 0 < q ∧ stock pid < q then (cart, false, some (.insufficientStock (stock pid)))
    else
      match cart with
      | none => (cart, false, some .cartNotFound)
      | some lines =>
        if q = 0 then (some (lines.filter (fun l => l.product_id != pid)), true, none)
        else (some (setQty lines pid q), true, none)

/-- Translation of `remove_from_cart`: literally
`update_cart_item(user_id, product_id, 0)`. -/
def remove_from_cart (stock : Nat → Int) (cart : Option (List CartLine))
    (pid? : Option Nat) : Option (List CartLine) × Bool × Option UpdError :=
  update_cart_item stock cart pid? 0

/-! Store-level lemmas about `find?`, `upsertLine` and `setQty`. -/

theorem find?_append_none {pr : CartLine → Bool} {l1 l2 : List CartLine}
    (h : l1.find? pr = none) : (l1 ++ l2).find? pr = l2.find? pr := by
  induction l1 with
  | nil => rfl
  | cons a as ih =>
    cases hpa : pr a with
    | true => rw [List.find?_cons_of_pos _ hpa] at h; exact absurd h (by simp)
    | false =>
      rw [List.find?_cons_of_neg _ (by simp [hpa])] at h
      rw [List.cons_append, List.find?_cons_of_neg _ (by simp [hpa])]
      exact ih h

theorem find?_append_some {pr : CartLine → Bool} {l1 l2 : List CartLine} {a : CartLine}
    (h : l1.find? pr = some a) : (l1 ++ l2).find? pr = some a := by
  induction l1 with
  | nil => exact absurd h (by simp)
  | cons b bs ih =>
    cases hpb : pr b with
    | true =>
      rw [List.find?_cons_of_pos _ hpb] at h
      rw [List.cons_append, List.find?_cons_of_pos _ hpb]
      exact h
    | false =>
      rw [List.find?_cons_of_neg _ (by simp [hpb])] at h
      rw [List.cons_append, List.find?_cons_of_neg _ (by simp [hpb])]
      exact ih h

theorem find?_map_keyed (lines : List CartLine) (pid : Nat) (f : CartLine → CartLine)
    (hf : ∀ m, (f m).product_id = m.product_id) :
    (lines.map (fun m => if m.product_id == pid then f m else m)).find?
        (fun l => l.product_id == pid)
      = (lines.find? (fun l => l.product_id == pid)).map f := by
  induction lines with
  | nil => rfl
  | cons m rest ih =>
    by_cases h : m.product_id = pid
    · have h1 : (if m.product_id == pid then f m else m) = f m := by simp [h]
      rw [List.map_cons, h1, List.find?_cons_of_pos _ (by simp [hf, h]),
        List.find?_cons_of_pos _ (by simp [h])]
      rfl
    · have h1 : (if m.product_id == pid then f m else m) = m := by simp [h]
      rw [List.map_cons, h1, List.find?_cons_of_neg _ (by simp [h]),
        List.find?_cons_of_neg _ (by simp [h])]
      exact ih

theorem priceOf?_map_qtyUpd (lines : List CartLine) (pid x : Nat) (g : CartLine → Int) :
    priceOf? (lines.map (fun m => if m.product_id == pid then { m with quantity := g m } else m)) x
      = priceOf? lines x := by
  induction lines with
  | nil => rfl
  | cons m rest ih =>
    have hid : (if m.product_id == pid then { m with quantity := g m } else m).product_id
        = m.product_id := by split <;> rfl
    have hpr : (if m.product_id == pid then { m with quantity := g m } else m).unit_price
        = m.unit_price := by split <;> rfl
    by_cases h : m.product_id = x
    · unfold priceOf?
      rw [List.map_cons, List.find?_cons_of_pos _ (by rw [hid]; simp [h]),
        List.find?_cons_of_pos _ (by simp [h])]
      simp only [Option.map_some']
      rw [hpr]
    · unfold priceOf?
      rw [List.map_cons, List.find?_cons_of_neg _ (by rw [hid]; simp [h]),
        List.find?_cons_of_neg _ (by simp [h])]
      exact ih

theorem upsertLine_final_qty (lines : List CartLine) (pid : Nat) (q price : Int) :
    (upsertLine lines pid q price).2.1 = qtyOf lines pid + q := by
  unfold upsertLine qtyOf
  cases h : lines.find? (fun l => l.product_id == pid) <;> simp [h]

theorem qtyOf_upsertLine (lines : List CartLine) (pid : Nat) (q price : Int) :
    qtyOf (upsertLine lines pid q price).1 pid = qtyOf lines pid + q := by
  unfold upsertLine qtyOf
  cases h : lines.find? (fun l => l.product_id == pid) with
  | some l =>
    simp only [h]
    rw [find?_map_keyed lines pid
      (fun m => { m with quantity := m.quantity + q }) (fun m => rfl), h]
    rfl
  | none =>
    simp only [h]
    rw [find?_append_none h, List.find?_cons_of_pos _ (by simp)]
    simp

theorem find?_upsertLine_isSome (lines : List CartLine) (pid : Nat) (q price : Int) :
    ((upsertLine lines pid q price).1.find? (fun l => l.product_id == pid)).isSome = true := by
  unfold upsertLine
  cases h : lines.find? (fun l => l.product_id == pid) with
  | some l =>
    simp only []
    rw [find?_map_keyed lines pid
      (fun m => { m with quantity := m.quantity + q }) (fun m => rfl), h]
    rfl
  | none => simp only []; rw [find?_append_none h, List.find?_cons_of_pos _ (by simp)]; rfl

theorem priceOf?_upsertLine_self (lines : List CartLine) (pid : Nat) (q price : Int) :
    priceOf? (upsertLine lines pid q price).1 pid = some (upsertLine lines pid q price).2.2 := by
  unfold upsertLine priceOf?
  cases h : lines.find? (fun l => l.product_id == pid) with
  | some l =>
    simp only []
    rw [find?_map_keyed lines pid
      (fun m => { m with quantity := m.quantity + q }) (fun m => rfl), h]
    rfl
  | none =>
    simp only []
    rw [find?_append_none h, List.find?_cons_of_pos _ (by simp)]
    rfl

theorem priceOf?_upsertLine_pres (lines : List CartLine) (pid : Nat) (q price : Int)
    (x : Nat) (P : Int) (h : priceOf? lines x = some P) :
    priceOf? (upsertLine lines pid q price).1 x = some P := by
  unfold upsertLine
  cases hf : lines.find? (fun l => l.product_id == pid) with
  | some l => simp only []; rw [priceOf?_map_qtyUpd]; exact h
  | none =>
    simp only []
    unfold priceOf? at h ⊢
    cases hx : lines.find? (fun l => l.product_id == x) with
    | some a => rw [find?_append_some hx]; rw [hx] at h; exact h
    | none => rw [hx] at h; exact absurd h (by simp)

theorem priceOf?_setQty (lines : List CartLine) (pid : Nat) (q : Int) (x : Nat) :
    priceOf? (setQty lines pid q) x = priceOf? lines x := by
  unfold setQty
  exact priceOf?_map_qtyUpd lines pid x (fun _ => q)

theorem qtyOf_setQty_self (lines : List CartLine) (pid : Nat) (a : Int)
    (h : (lines.find? (fun l => l.product_id == pid)).isSome = true) :
    qtyOf (setQty lines pid a) pid = a := by
  unfold setQty qtyOf
  rw [find?_map_keyed lines pid (fun m => { m with quantity := a }) (fun m => rfl)]
  cases hf : lines.find? (fun l => l.product_id == pid) with
  | some l => rfl
  | none => rw [hf] at h; exact absurd h (by simp)

theorem setQty_of_absent (lines : List CartLine) (pid : Nat) (q : Int)
    (h : ∀ l ∈ lines, l.product_id ≠ pid) : setQty lines pid q = lines := by
  unfold setQty
  have hall : ∀ a ∈ lines,
      (if a.product_id == pid then { a with quantity := q } else a) = id a := by
    intro a ha
    simp [h a ha]
  rw [List.map_congr_left hall, List.map_id]

/-! Pricing lemmas. -/

theorem lookup_snd_mem {k : String} :
    ∀ {ps : List (String × (Int × Int))} {r : Int × Int},
      ps.lookup k = some r → r ∈ ps.map Prod.snd := by
  intro ps
  induction ps with
  | nil => intro r h; exact absurd h (by simp)
  | cons a as ih =>
    intro r h
    obtain ⟨k1, v1⟩ := a
    simp only [List.lookup] at h
    cases hk : (k == k1) with
    | true => rw [hk] at h; cases Option.some.inj h; simp
    | false =>
      rw [hk] at h
      simp only [List.map_cons]
      exact List.mem_cons_of_mem _ (ih h)

theorem priceRange_le (category : Option String) :
    (priceRange category).1 ≤ (priceRange category).2 := by
  unfold priceRange
  cases h : PRICE_RANGES.lookup (category.getD "") with
  | none => decide
  | some r =>
    have hm := lookup_snd_mem h
    simp only [PRICE_RANGES, List.map_cons, List.map_nil, List.mem_cons,
      List.not_mem_nil, or_false] at hm
    rcases hm with rfl | rfl | rfl | rfl | rfl | rfl | rfl | rfl | rfl | rfl <;> decide

theorem le_roundCents_of_le {lo : Int} {x : Rat} (h : (lo : Rat) ≤ x) : lo ≤ roundCents x := by
  rw [roundCents, Int.le_floor]
  have h2 : (0 : Rat) ≤ 1/2 := by norm_num
  linarith

theorem roundCents_le_of_le {x : Rat} {hi : Int} (h : x ≤ (hi : Rat)) : roundCents x ≤ hi := by
  have h2 : roundCents x < hi + 1 := by
    rw [roundCents, Int.floor_lt]
    push_cast
    linarith
  omega

theorem generate_price_mem (category : Option String) (u : Rat)
    (h0 : 0 ≤ u) (h1 : u ≤ 1) :
    (priceRange category).1 ≤ generate_price category u
    ∧ generate_price category u ≤ (priceRange category).2 := by
  have hle : ((priceRange category).1 : Rat) ≤ ((priceRange category).2 : Rat) := by
    exact_mod_cast priceRange_le category
  constructor
  · refine le_roundCents_of_le ?_
    nlinarith [mul_nonneg h0 (sub_nonneg.mpr hle)]
  · refine roundCents_le_of_le ?_
    nlinarith [mul_nonneg (sub_nonneg.mpr h1) (sub_nonneg.mpr hle)]

/-! Per-item processing lemmas. -/

theorem processItem_priceOf?_pres (catalog : List Product) (stock : Nat → Int) (vip : Bool)
    (lines : List CartLine) (req : ItemReq) (u : Rat) (x : Nat) (P : Int)
    (h : priceOf? lines x = some P) :
    priceOf? (processItem catalog stock vip lines req u).1 x = some P := by
  unfold processItem
  split
  · exact h
  split
  · exact h
  split
  · exact h
  split
  · exact h
  split
  · rw [priceOf?_setQty]
    exact priceOf?_upsertLine_pres _ _ _ _ _ _ h
  · exact priceOf?_upsertLine_pres _ _ _ _ _ _ h

theorem processItems_priceOf?_pres (catalog : List Product) (stock : Nat → Int) (vip : Bool) :
    ∀ (items : List (ItemReq × Rat)) (lines : List CartLine) (x : Nat) (P : Int),
      priceOf? lines x = some P →
      priceOf? (processItems catalog stock vip lines items).1 x = some P := by
  intro items
  induction items with
  | nil => intro lines x P h; exact h
  | cons iu rest ih =>
    intro lines x P h
    obtain ⟨req, u⟩ := iu
    exact ih _ _ _ (processItem_priceOf?_pres catalog stock vip lines req u x P h)

/-! Search lemmas. -/

theorem bestBy_eq_none {f : Product → Rat} {l : List Product} :
    bestBy f l = none ↔ l = [] := by
  cases l with
  | nil => simp [bestBy]
  | cons a as =>
    simp only [bestBy]
    cases h : bestBy f as <;> simp [h]
    split <;> simp

theorem bestBy_mem {f : Product → Rat} :
    ∀ {l : List Product} {x : Product}, bestBy f l = some x → x ∈ l := by
  intro l
  induction l with
  | nil => intro x h; exact absurd h (by simp [bestBy])
  | cons a as ih =>
    intro x h
    rw [bestBy] at h
    revert h
    cases hb : bestBy f as with
    | none =>
      intro h
      exact (Option.some.inj h) ▸ List.mem_cons_self _ _
    | some y =>
      intro h
      have h2 : (if f a < f y then some y else some a) = some x := h
      by_cases hlt : f a < f y
      · rw [if_pos hlt] at h2
        exact (Option.some.inj h2) ▸ List.mem_cons_of_mem _ (ih hb)
      · rw [if_neg hlt] at h2
        exact (Option.some.inj h2) ▸ List.mem_cons_self _ _

theorem bestBy_max {f : Product → Rat} :
    ∀ {l : List Product} {x : Product}, bestBy f l = some x → ∀ y ∈ l, f y ≤ f x := by
  intro l
  induction l with
  | nil => intro x _ y hy; exact absurd hy (by simp)
  | cons a as ih =>
    intro x h y hy
    rw [bestBy] at h
    revert h
    cases hb : bestBy f as with
    | none =>
      intro h
      cases Option.some.inj h
      rcases List.mem_cons.mp hy with rfl | hy2
      · exact le_refl _
      · exact absurd (bestBy_eq_none.mp hb ▸ hy2) (by simp)
    | some b =>
      intro h
      have h2 : (if f a < f b then some b else some a) = some x := h
      by_cases hlt : f a < f b
      · rw [if_pos hlt] at h2
        cases Option.some.inj h2
        rcases List.mem_cons.mp hy with rfl | hy2
        · exact le_of_lt hlt
        · exact ih hb y hy2
      · rw [if_neg hlt] at h2
        cases Option.some.inj h2
        rcases List.mem_cons.mp hy with rfl | hy2
        · exact le_refl _
        · exact le_trans (ih hb y hy2) (le_of_not_lt hlt)

theorem qualifies_iff (vip : Bool) (name : String) (p : Product) :
    qualifies vip name p = true ↔
      (p.is_vip = false ∨ vip = true) ∧ (3 : Rat)/10 < similarity p.product_name name := by
  unfold qualifies
  rcases p.is_vip with _ | _ <;> rcases vip with _ | _ <;> simp

theorem searchProduct_eq_some {catalog : List Product} {name : String} {vip : Bool}
    {r : FoundProduct} (h : searchProduct catalog name vip = some r) :
    ∃ p, p ∈ catalog ∧ qualifies vip name p = true ∧
      r = ⟨p.product_id, p.product_name, "Unknown", false, similarity p.product_name name⟩ ∧
      ∀ q ∈ catalog, qualifies vip name q = true →
        similarity q.product_name name ≤ similarity p.product_name name := by
  unfold searchProduct at h
  cases hb : bestBy (fun p => similarity p.product_name name) (catalog.filter (qualifies vip name)) with
  | none => rw [hb] at h; exact absurd h (by simp)
  | some p =>
    rw [hb] at h
    refine ⟨p, ?_, ?_, ?_, ?_⟩
    · exact (List.mem_filter.mp (bestBy_mem hb)).1
    · exact (List.mem_filter.mp (bestBy_mem hb)).2
    · cases h; rfl
    · intro q hq hql
      exact bestBy_max hb q (List.mem_filter.mpr ⟨hq, hql⟩)

theorem searchProduct_eq_none {catalog : List Product} {name : String} {vip : Bool}
    (h : ∀ p ∈ catalog, qualifies vip name p = false) :
    searchProduct catalog name vip = none := by
  unfold searchProduct
  have hf : catalog.filter (qualifies vip name) = [] := by
    rw [List.filter_eq_nil_iff]
    intro p hp
    simp [h p hp]
  rw [hf]
  rfl

/-! Claim theorems. -/

/-- C1 (as stated) is false on the code: in the call below the cart starts
empty and the same product is requested twice (quantities 2 and 3, stock 100,
both draws 0). The second entry of `added_items` reports the requested
quantity 3 but `total_price = 1000 = unit_price * 5`, the accumulated
post-upsert quantity, not `unit_price * 3 = 600`: the code multiplies
`final_price` by `final_quantity`, not by the requested quantity. -/
theorem C1_counterexample :
    ∃ ai ∈ (addToCart [⟨1, "Tomato", some "Vegetables", false⟩] (fun _ => 100) false []
        [(⟨"Tomato", some 2, none, none⟩, 0), (⟨"Tomato", some 3, none, none⟩, 0)]).added_items,
      ai.total_price ≠ ai.unit_price * ai.quantity := by
  with_unfolding_all decide

/-- C1 (amended): for every item that `add_to_cart` reports in `added_items`,
the reported `total_price` equals the stored unit price multiplied by the
quantity now stored on that product's line (the post-upsert, possibly clamped
quantity), and the reported `unit_price` is exactly the stored unit price; it
equals `unit_price * requested_quantity` only when the line is fresh and
unclamped. -/
theorem C1_total_price_is_stored_price_times_stored_qty
    (catalog : List Product) (stock : Nat → Int) (vip : Bool)
    (lines : List CartLine) (req : ItemReq) (u : Rat)
    (lines1 : List CartLine) (ai : AddedItem) (f1 : Option FailedItem)
    (h : processItem catalog stock vip lines req u = (lines1, some ai, f1)) :
    ai.total_price = ai.unit_price * qtyOf lines1 ai.product_id
    ∧ priceOf? lines1 ai.product_id = some ai.unit_price := by
  unfold processItem at h
  split at h
  · simp at h
  split at h
  · simp at h
  split at h
  · simp at h
  rename_i product hsearch
  split at h
  · simp at h
  split at h
  · simp only [Prod.mk.injEq] at h
    obtain ⟨hl, ha, -⟩ := h
    cases Option.some.inj ha
    subst hl
    refine ⟨?_, ?_⟩
    · simp only []
      rw [qtyOf_setQty_self _ _ _ (find?_upsertLine_isSome _ _ _ _)]
    · simp only []
      rw [priceOf?_setQty]
      exact priceOf?_upsertLine_self _ _ _ _
  · simp only [Prod.mk.injEq] at h
    obtain ⟨hl, ha, -⟩ := h
    cases Option.some.inj ha
    subst hl
    refine ⟨?_, ?_⟩
    · simp only []
      rw [qtyOf_upsertLine, upsertLine_final_qty]
    · simp only []
      exact priceOf?_upsertLine_self _ _ _ _

/-- Witness for C1 (amended): adding 3 Tomatoes to a cart already holding 2 at
a pinned price of 5.00 EUR reports `total_price` 25.00 EUR, the stored price
times the stored quantity 5. -/
theorem C1_total_price_witness :
    (2500 : Int) = 500 * qtyOf [⟨1, 5, 500⟩] 1
    ∧ priceOf? [⟨1, 5, 500⟩] 1 = some 500 :=
  C1_total_price_is_stored_price_times_stored_qty
    [⟨1, "Tomato", some "Vegetables", false⟩] (fun _ => 100) false
    [⟨1, 2, 500⟩] ⟨"Tomato", some 3, none, none⟩ 0
    [⟨1, 5, 500⟩] ⟨1, "Tomato", 3, 500, 2500⟩ none (by with_unfolding_all rfl)

/-- C3: once a cart line exists for a product with some unit price, no
subsequent `add_to_cart` call (any item list, any draws, any stock) changes
that stored unit price: the upsert's `ON CONFLICT` branch adds only to
`quantity` and the clamp `UPDATE` touches only `quantity`. -/
theorem C3_price_pinning (catalog : List Product) (stock : Nat → Int) (vip : Bool)
    (lines : List CartLine) (items : List (ItemReq × Rat)) (pid : Nat) (P : Int)
    (h : priceOf? lines pid = some P) :
    priceOf? (addToCart catalog stock vip lines items).lines pid = some P := by
  unfold addToCart
  exact processItems_priceOf?_pres catalog stock vip items lines pid P h

/-- Witness for C3: a line pinned at 5.00 EUR keeps that price across a later
`add_to_cart` of the same product with a different random draw. -/
theorem C3_price_pinning_witness :
    priceOf? (addToCart [⟨1, "Tomato", some "Vegetables", false⟩] (fun _ => 100) false
        [⟨1, 2, 500⟩] [(⟨"Tomato", some 3, none, none⟩, 1/2)]).lines 1 = some 500 :=
  C3_price_pinning _ _ _ _ _ 1 500 (by decide)

/-- C5: `_get_stock_quantity` is a total function of the response outcome (so
no outcome raises to the caller): it returns 0 on transport errors, on any
status ≥ 400, on a malformed body, on a body without `items` and on an empty
`items` list; on a parsed 2xx/3xx body with a non-empty `items` list it
returns the first item's `onStock`, defaulting to 0 when the field is
absent. -/
theorem C5_stock_lookup_never_raises_defaults_zero :
    get_stock_quantity .transportError = 0
    ∧ (∀ code body, 400 ≤ code → get_stock_quantity (.httpStatus code body) = 0)
    ∧ (∀ code, code < 400 → get_stock_quantity (.httpStatus code none) = 0)
    ∧ (∀ code, code < 400 → get_stock_quantity (.httpStatus code (some ⟨none⟩)) = 0)
    ∧ (∀ code, code < 400 → get_stock_quantity (.httpStatus code (some ⟨some []⟩)) = 0)
    ∧ (∀ code it rest, code < 400 →
        get_stock_quantity (.httpStatus code (some ⟨some (it :: rest)⟩)) = it.onStock.getD 0) := by
  refine ⟨rfl, ?_, ?_, ?_, ?_, ?_⟩
  · intro code body h
    show (if 400 ≤ code then (0 : Int) else _) = 0
    rw [if_pos h]
  · intro code h
    show (if 400 ≤ code then (0 : Int) else 0) = 0
    rw [if_neg (not_le.mpr h)]
  · intro code h
    show (if 400 ≤ code then (0 : Int) else 0) = 0
    rw [if_neg (not_le.mpr h)]
  · intro code h
    show (if 400 ≤ code then (0 : Int) else 0) = 0
    rw [if_neg (not_le.mpr h)]
  · intro code it rest h
    show (if 400 ≤ code then (0 : Int) else it.onStock.getD 0) = it.onStock.getD 0
    rw [if_neg (not_le.mpr h)]

/-- Witness for C5: a 500 status yields 0 even with a well-formed body; a 200
status yields the first item's `onStock`; a 200 status with the `onStock` key
absent yields 0. -/
theorem C5_stock_lookup_witness :
    get_stock_quantity (.httpStatus 500 (some ⟨some [⟨some 9⟩]⟩)) = 0
    ∧ get_stock_quantity (.httpStatus 200 (some ⟨some [⟨some 9⟩]⟩)) = 9
    ∧ get_stock_quantity (.httpStatus 200 (some ⟨some [⟨none⟩]⟩)) = 0 :=
  ⟨C5_stock_lookup_never_raises_defaults_zero.2.1 500 _ (by decide),
   C5_stock_lookup_never_raises_defaults_zero.2.2.2.2.2 200 ⟨some 9⟩ [] (by decide),
   C5_stock_lookup_never_raises_defaults_zero.2.2.2.2.2 200 ⟨none⟩ [] (by decide)⟩

/-- C10: an `add_to_cart` request item without the `"quantity"` key behaves
exactly like the same item with quantity 1 (the code reads
`item.get("quantity", 1)`), and such an item is never rejected with the
"Quantity must be positive" failure — it proceeds through the normal flow. -/
theorem C10_missing_quantity_defaults_to_one (catalog : List Product) (stock : Nat → Int)
    (vip : Bool) (lines : List CartLine) (name : String) (c : Option String)
    (o : Option Bool) (u : Rat) :
    processItem catalog stock vip lines ⟨name, none, c, o⟩ u =
      processItem catalog stock vip lines ⟨name, some 1, c, o⟩ u
    ∧ ∀ lines1 a1 f1,
        processItem catalog stock vip lines ⟨name, none, c, o⟩ u = (lines1, a1, some f1) →
        f1.error ≠ .quantityNotPositive := by
  constructor
  · rfl
  · intro lines1 a1 f1 h
    unfold processItem at h
    split at h
    · simp only [Prod.mk.injEq] at h
      obtain ⟨-, -, hf⟩ := h
      cases Option.some.inj hf
      simp
    split at h
    · rename_i hq
      have hq2 : (1 : Int) ≤ 0 := hq
      omega
    split at h
    · simp only [Prod.mk.injEq] at h
      obtain ⟨-, -, hf⟩ := h
      cases Option.some.inj hf
      simp
    split at h
    · simp only [Prod.mk.injEq] at h
      obtain ⟨-, -, hf⟩ := h
      cases Option.some.inj hf
      simp
    split at h
    · simp only [Prod.mk.injEq] at h
      obtain ⟨-, -, hf⟩ := h
      cases Option.some.inj hf
      simp
    · simp only [Prod.mk.injEq] at h
      obtain ⟨-, -, hf⟩ := h
      exact absurd hf (by simp)

/-- Witness for C10: with an empty catalog the quantity-less item fails with
"Product not found" (not "Quantity must be positive"), and behaves like an
explicit quantity of 1. -/
theorem C10_missing_quantity_witness :
    (FailedItem.mk "Milk" none (some 1) none .productNotFound).error ≠ .quantityNotPositive :=
  (C10_missing_quantity_defaults_to_one [] (fun _ => 0) false [] "Milk" none none 0).2
    [] none _ (by with_unfolding_all rfl)

/-- C4: for every `add_to_cart` item whose requested quantity exceeds the
stock fetched for the resolved product, the item is skipped before any write
(the cart lines are returned unchanged) and the call records a failure for
that item carrying the available count, both in the reason and in the
`available_stock` field; the failure appears in the call's `failed_items`. -/
theorem C4_insufficient_stock_skips_write (catalog : List Product) (stock : Nat → Int)
    (vip : Bool) (lines : List CartLine) (req : ItemReq) (u : Rat) (p : FoundProduct)
    (hname : ¬ pyStrip req.product_name = "")
    (hq : 0 < req.quantity.getD 1)
    (hp : searchProduct catalog (pyStrip req.product_name) vip = some p)
    (hstock : stock p.product_id < req.quantity.getD 1) :
    processItem catalog stock vip lines req u =
      (lines, none, some ⟨p.product_name, some p.product_id, some (req.quantity.getD 1),
        some (stock p.product_id), .insufficientStock (stock p.product_id)⟩)
    ∧ ∀ rest, (⟨p.product_name, some p.product_id, some (req.quantity.getD 1),
        some (stock p.product_id), .insufficientStock (stock p.product_id)⟩ : FailedItem) ∈
        (addToCart catalog stock vip lines ((req, u) :: rest)).failed_items := by
  have hmain : processItem catalog stock vip lines req u =
      (lines, none, some ⟨p.product_name, some p.product_id, some (req.quantity.getD 1),
        some (stock p.product_id), .insufficientStock (stock p.product_id)⟩) := by
    simp only [processItem, hp]
    rw [if_neg hname, if_neg (not_le.mpr hq), if_pos hstock]
  refine ⟨hmain, ?_⟩
  intro rest
  unfold addToCart
  simp only [processItems]
  rw [hmain]
  simp

/-- Witness for C4: ordering 3 Caviar with stock 0 writes nothing and records
the "Insufficient stock (only 0 available)" failure. -/
theorem C4_insufficient_stock_witness :
    processItem [⟨1, "Caviar", none, false⟩] (fun _ => 0) false []
        ⟨"Caviar", some 3, none, none⟩ 0 =
      ([], none, some ⟨"Caviar", some 1, some 3, some 0, .insufficientStock 0⟩) :=
  (C4_insufficient_stock_skips_write [⟨1, "Caviar", none, false⟩] (fun _ => 0) false []
    ⟨"Caviar", some 3, none, none⟩ 0 ⟨1, "Caviar", "Unknown", false, 1⟩
    (by decide) (by decide) (by with_unfolding_all rfl) (by decide)).1

/-- C2 (as stated) is false on the code: in the Tomatoe/Tomato scenario the
draw 9/10 produces unit price 9.20 EUR, outside the Vegetables range
[2.00, 8.00): `_search_product`'s query hardcodes `'Unknown' AS category`, so
`_generate_price` uses the default range, not the Vegetables one. -/
theorem C2_counterexample :
    ∃ ai ∈ (addToCart [⟨1, "Tomato", some "Vegetables", false⟩] (fun _ => 10) false []
        [(⟨"Tomatoe", some 5, none, none⟩, 9/10)]).added_items,
      ¬ (200 ≤ ai.unit_price ∧ ai.unit_price < 800) := by
  with_unfolding_all decide

/-- C2 (amended): in the scenario items = [{product_name "Tomatoe",
quantity 5}], catalog product "Tomato" (catalog category Vegetables), stock
10: the product is found by fuzzy match, a line is created with quantity 5,
`added_items` holds that item with quantity 5, success is true, and the
assigned unit price lies in [2.00, 10.00] — the DEFAULT range in euro — for
every draw, because the search row's category is the hardcoded 'Unknown'. -/
theorem C2_scenario_tomatoe (u : Rat) (h0 : 0 ≤ u) (h1 : u ≤ 1) :
    ∃ price : Int,
      (addToCart [⟨1, "Tomato", some "Vegetables", false⟩] (fun _ => 10) false []
          [(⟨"Tomatoe", some 5, none, none⟩, u)]).added_items
        = [⟨1, "Tomato", 5, price, price * 5⟩]
      ∧ (addToCart [⟨1, "Tomato", some "Vegetables", false⟩] (fun _ => 10) false []
          [(⟨"Tomatoe", some 5, none, none⟩, u)]).success = true
      ∧ (addToCart [⟨1, "Tomato", some "Vegetables", false⟩] (fun _ => 10) false []
          [(⟨"Tomatoe", some 5, none, none⟩, u)]).lines = [⟨1, 5, price⟩]
      ∧ 200 ≤ price ∧ price ≤ 1000 := by
  refine ⟨generate_price (some "Unknown") u, ?_, ?_, ?_, ?_, ?_⟩
  · with_unfolding_all rfl
  · with_unfolding_all rfl
  · with_unfolding_all rfl
  · have h := (generate_price_mem (some "Unknown") u h0 h1).1
    have e : priceRange (some "Unknown") = (200, 1000) := rfl
    rw [e] at h
    exact h
  · have h := (generate_price_mem (some "Unknown") u h0 h1).2
    have e : priceRange (some "Unknown") = (200, 1000) := rfl
    rw [e] at h
    exact h

/-- Witness for C2 (amended): the scenario at the draw 1/2. -/
theorem C2_scenario_witness :
    ∃ price : Int,
      (addToCart [⟨1, "Tomato", some "Vegetables", false⟩] (fun _ => 10) false []
          [(⟨"Tomatoe", some 5, none, none⟩, 1/2)]).added_items
        = [⟨1, "Tomato", 5, price, price * 5⟩]
      ∧ (addToCart [⟨1, "Tomato", some "Vegetables", false⟩] (fun _ => 10) false []
          [(⟨"Tomatoe", some 5, none, none⟩, 1/2)]).success = true
      ∧ (addToCart [⟨1, "Tomato", some "Vegetables", false⟩] (fun _ => 10) false []
          [(⟨"Tomatoe", some 5, none, none⟩, 1/2)]).lines = [⟨1, 5, price⟩]
      ∧ 200 ≤ price ∧ price ≤ 1000 :=
  C2_scenario_tomatoe (1/2) (by norm_num) (by norm_num)

/-- C6: `_search_product` returns at most one product (it is `Option`-valued):
whenever it returns a row, the row comes from a catalog entry passing the VIP
fence with similarity above 0.3, every fence-passing catalog entry above the
threshold has similarity at most the returned one, and when no entry
qualifies it returns none; a non-VIP caller never receives a restricted
product (the witness entry satisfies `is_vip = false` when `vip = false`),
while a VIP caller can receive one. -/
theorem C6_search_characterization :
    (∀ catalog name vip r, searchProduct catalog name vip = some r →
      ∃ p, p ∈ catalog ∧ (p.is_vip = false ∨ vip = true)
        ∧ (3 : Rat)/10 < similarity p.product_name name
        ∧ r = ⟨p.product_id, p.product_name, "Unknown", false, similarity p.product_name name⟩
        ∧ ∀ q2 ∈ catalog, (q2.is_vip = false ∨ vip = true) →
            (3 : Rat)/10 < similarity q2.product_name name →
            similarity q2.product_name name ≤ r.sim)
    ∧ (∀ catalog name vip,
        (∀ p ∈ catalog, (p.is_vip = false ∨ vip = true) →
          similarity p.product_name name ≤ 3/10) →
        searchProduct catalog name vip = none)
    ∧ (searchProduct [⟨1, "Truffle", none, true⟩] "Truffle" true).isSome = true
    ∧ searchProduct [⟨1, "Truffle", none, true⟩] "Truffle" false = none := by
  refine ⟨?_, ?_, by with_unfolding_all decide, by with_unfolding_all decide⟩
  · intro catalog name vip r h
    obtain ⟨p, hp, hql, hr, hmax⟩ := searchProduct_eq_some h
    obtain ⟨hfence, hsim⟩ := (qualifies_iff vip name p).mp hql
    refine ⟨p, hp, hfence, hsim, hr, ?_⟩
    intro q2 hq2 hfence2 hsim2
    have hle := hmax q2 hq2 ((qualifies_iff vip name q2).mpr ⟨hfence2, hsim2⟩)
    rw [hr]
    exact hle
  · intro catalog name vip h
    apply searchProduct_eq_none
    intro p hp
    rcases Bool.eq_false_or_eq_true (qualifies vip name p) with ht | hf
    · exfalso
      obtain ⟨hfence, hsim⟩ := (qualifies_iff vip name p).mp ht
      exact absurd (h p hp hfence) (not_le.mpr hsim)
    · exact hf

/-- Witness for C6: a VIP search over a one-entry restricted catalog returns
that entry as the best match. -/
theorem C6_search_witness :
    ∃ p, p ∈ ([⟨1, "Truffle", none, true⟩] : List Product)
      ∧ (p.is_vip = false ∨ true = true)
      ∧ (3 : Rat)/10 < similarity p.product_name "Truffle"
      ∧ (⟨1, "Truffle", "Unknown", false, similarity "Truffle" "Truffle"⟩ : FoundProduct)
          = ⟨p.product_id, p.product_name, "Unknown", false, similarity p.product_name "Truffle"⟩
      ∧ ∀ q2 ∈ ([⟨1, "Truffle", none, true⟩] : List Product),
          (q2.is_vip = false ∨ true = true) →
          (3 : Rat)/10 < similarity q2.product_name "Truffle" →
          similarity q2.product_name "Truffle" ≤
            (⟨1, "Truffle", "Unknown", false,
              similarity "Truffle" "Truffle"⟩ : FoundProduct).sim :=
  C6_search_characterization.1 [⟨1, "Truffle", none, true⟩] "Truffle" true
    ⟨1, "Truffle", "Unknown", false, similarity "Truffle" "Truffle"⟩
    (by with_unfolding_all rfl)

/-- C7: the `success` flag of `add_to_cart` is true exactly when
`failed_items` is empty; and an item whose post-upsert resulting quantity
exceeds the stock snapshot yields both an added record (its `total_price`
computed at the clamped level, the stored line clamped to the available
stock) and a failure record with the "Reduced quantity to available stock"
reason, and both records appear in the respective lists of the call. -/
theorem C7_success_iff_no_failures_and_clamp_in_both_lists :
    (∀ catalog stock vip lines0 items,
        (addToCart catalog stock vip lines0 items).success = true ↔
          (addToCart catalog stock vip lines0 items).failed_items = [])
    ∧ (∀ catalog (stock : Nat → Int) vip lines req u p,
        ¬ pyStrip req.product_name = "" →
        0 < req.quantity.getD 1 →
        searchProduct catalog (pyStrip req.product_name) vip = some p →
        req.quantity.getD 1 ≤ stock p.product_id →
        stock p.product_id < qtyOf lines p.product_id + req.quantity.getD 1 →
        ∃ lines1 ai fi,
          processItem catalog stock vip lines req u = (lines1, some ai, some fi)
          ∧ fi.error = .reducedToAvailable (stock p.product_id)
          ∧ fi.available_stock = some (stock p.product_id)
          ∧ ai.product_id = p.product_id
          ∧ ai.quantity = req.quantity.getD 1
          ∧ ai.total_price = ai.unit_price * stock p.product_id
          ∧ qtyOf lines1 p.product_id = stock p.product_id
          ∧ ∀ rest,
              ai ∈ (addToCart catalog stock vip lines ((req, u) :: rest)).added_items
              ∧ fi ∈ (addToCart catalog stock vip lines ((req, u) :: rest)).failed_items) := by
  constructor
  · intro catalog stock vip lines0 items
    unfold addToCart
    simp [List.isEmpty_iff]
  · intro catalog stock vip lines req u p hname hq hp hsle hover
    have hcond : stock p.product_id <
        (upsertLine lines p.product_id (req.quantity.getD 1)
          (generate_price (some p.category) u)).2.1 := by
      rw [upsertLine_final_qty]
      exact hover
    have hmain : processItem catalog stock vip lines req u =
        (setQty (upsertLine lines p.product_id (req.quantity.getD 1)
            (generate_price (some p.category) u)).1 p.product_id (stock p.product_id),
         some ⟨p.product_id, p.product_name, req.quantity.getD 1,
           (upsertLine lines p.product_id (req.quantity.getD 1)
             (generate_price (some p.category) u)).2.2,
           (upsertLine lines p.product_id (req.quantity.getD 1)
             (generate_price (some p.category) u)).2.2 * stock p.product_id⟩,
         some ⟨p.product_name, some p.product_id, some (req.quantity.getD 1),
           some (stock p.product_id), .reducedToAvailable (stock p.product_id)⟩) := by
      simp only [processItem, hp]
      rw [if_neg hname, if_neg (not_le.mpr hq), if_neg (not_lt.mpr hsle), if_pos hcond]
    refine ⟨_, _, _, hmain, rfl, rfl, rfl, rfl, rfl, ?_, ?_⟩
    · exact qtyOf_setQty_self _ _ _ (find?_upsertLine_isSome _ _ _ _)
    · intro rest
      constructor
      · unfold addToCart
        simp only [processItems]
        rw [hmain]
        simp
      · unfold addToCart
        simp only [processItems]
        rw [hmain]
        simp

/-- Witness for C7's clamp case: a cart holding 8 Tomatoes, stock 10,
requesting 5 more: the line is clamped to 10, the item lands in both lists. -/
theorem C7_clamp_witness :
    ∃ lines1 ai fi,
      processItem [⟨1, "Tomato", none, false⟩] (fun _ => 10) false [⟨1, 8, 300⟩]
          ⟨"Tomato", some 5, none, none⟩ 0 = (lines1, some ai, some fi)
      ∧ fi.error = .reducedToAvailable 10
      ∧ fi.available_stock = some 10
      ∧ ai.product_id = 1
      ∧ ai.quantity = 5
      ∧ ai.total_price = ai.unit_price * 10
      ∧ qtyOf lines1 1 = 10
      ∧ ∀ rest,
          ai ∈ (addToCart [⟨1, "Tomato", none, false⟩] (fun _ => 10) false [⟨1, 8, 300⟩]
            ((⟨"Tomato", some 5, none, none⟩, 0) :: rest)).added_items
          ∧ fi ∈ (addToCart [⟨1, "Tomato", none, false⟩] (fun _ => 10) false [⟨1, 8, 300⟩]
            ((⟨"Tomato", some 5, none, none⟩, 0) :: rest)).failed_items :=
  C7_success_iff_no_failures_and_clamp_in_both_lists.2
    [⟨1, "Tomato", none, false⟩] (fun _ => 10) false [⟨1, 8, 300⟩]
    ⟨"Tomato", some 5, none, none⟩ 0 ⟨1, "Tomato", "Unknown", false, 1⟩
    (by decide) (by decide) (by with_unfolding_all rfl) (by decide) (by decide)

/-- C8: `remove_from_cart` is literally `update_cart_item` with quantity 0;
and for every cart containing a line for `pid`, updating to quantity 0
succeeds, deletes that line, and the re-read cart no longer lists `pid`. -/
theorem C8_update_zero_removes_line :
    (∀ stock cart pidOpt, remove_from_cart stock cart pidOpt
        = update_cart_item stock cart pidOpt 0)
    ∧ (∀ (stock : Nat → Int) (lines : List CartLine) (pid : Nat),
        (∃ l ∈ lines, l.product_id = pid) →
        ∃ lines2,
          update_cart_item stock (some lines) (some pid) 0 = (some lines2, true, none)
          ∧ ∀ it ∈ (get_cart stock lines2).items, it.product_id ≠ pid) := by
  refine ⟨fun stock cart pidOpt => rfl, ?_⟩
  intro stock lines pid hmem
  refine ⟨lines.filter (fun l => l.product_id != pid), rfl, ?_⟩
  intro it hit
  simp only [get_cart, List.mem_map, List.mem_filter] at hit
  obtain ⟨l, ⟨-, hlpid⟩, rfl⟩ := hit
  simpa using hlpid

/-- Witness for C8: removing product 1 from a cart holding it leaves a cart
that no longer lists product 1. -/
theorem C8_update_zero_witness :
    ∃ lines2,
      update_cart_item (fun _ => 5) (some [⟨1, 2, 300⟩]) (some 1) 0 = (some lines2, true, none)
      ∧ ∀ it ∈ (get_cart (fun _ => 5) lines2).items, it.product_id ≠ 1 :=
  C8_update_zero_removes_line.2 (fun _ => 5) [⟨1, 2, 300⟩] 1 (by decide)

/-- C9 (implicit): updating a product that has no line in an existing cart,
with a positive quantity within stock, reports success and no error yet
changes nothing: the UPDATE matches zero rows, so the cart still does not
list the product. -/
theorem C9_update_absent_product_succeeds_without_write
    (stock : Nat → Int) (lines : List CartLine) (pid : Nat) (q : Int)
    (habs : ∀ l ∈ lines, l.product_id ≠ pid)
    (hq : 0 < q) (hs : q ≤ stock pid) :
    update_cart_item stock (some lines) (some pid) q = (some lines, true, none)
    ∧ ∀ it ∈ (get_cart stock lines).items, it.product_id ≠ pid := by
  constructor
  · have h1 : ¬ q < 0 := by omega
    have h2 : ¬ (0 < q ∧ stock pid < q) := by
      rintro ⟨-, hlt⟩
      omega
    have h3 : ¬ q = 0 := by omega
    simp only [update_cart_item]
    rw [if_neg h1, if_neg h2, if_neg h3, setQty_of_absent lines pid q habs]
  · intro it hit
    simp only [get_cart, List.mem_map] at hit
    obtain ⟨l, hl, rfl⟩ := hit
    exact habs l hl

/-- Witness for C9: updating absent product 1 to quantity 3 in a cart holding
only product 2 succeeds and leaves the cart unchanged. -/
theorem C9_update_absent_witness :
    update_cart_item (fun _ => 5) (some [⟨2, 1, 100⟩]) (some 1) 3
      = (some [⟨2, 1, 100⟩], true, none)
    ∧ ∀ it ∈ (get_cart (fun _ => 5) [⟨2, 1, 100⟩]).items, it.product_id ≠ 1 :=
  C9_update_absent_product_succeeds_without_write (fun _ => 5) [⟨2, 1, 100⟩] 1 3
    (by decide) (by decide) (by decide)

end DreamFarm
